import Mathlib

/-
  Verification of the zenbase_py client SDK (blocking `ZenbaseClient` in
  zenbase_client.py, non-blocking `AsyncZenbaseClient` in async_zenbase_client.py,
  helpers.py, models.py, validation.py).

  The embedding models JSON values, Python dict access (raising KeyError on a
  missing key), the client's error classes (ZenbaseAPIError / ValueError /
  KeyError / TypeError), the page decoder, the pagination and polling loops of
  get_batch_optimizer_run_results in both variants, the identity caches, and
  the request construction of _make_request / _make_async_request.
-/

namespace Zenbase

/-- A JSON value, as produced by `response.json()`.  Python `None` for a JSON
null; objects keep their key order, as Python dicts do. -/
inductive Json where
  | null : Json
  | num : Int → Json
  | str : String → Json
  | obj : List (String × Json) → Json
  | arr : List Json → Json

/-- A parsed JSON object (a Python dict), the shape every `.json()` call in the
client returns at top level. -/
abbrev JsonDict := List (String × Json)

/-- Python `d[k]` on a parsed JSON object: the value, or `none` (KeyError). -/
def dictGet (d : JsonDict) (k : String) : Option Json :=
  d.lookup k

/-- `value['output']`-style access on a nested JSON value: only objects have
keys. -/
def jsonGet (j : Json) (k : String) : Option Json :=
  match j with
  | .obj fields => fields.lookup k
  | _ => none

/-- The exception kinds the client code can raise: `ZenbaseAPIError` (the
single typed error of both client modules, carrying the object it was raised
with), Python's built-in `KeyError` (missing dict key), `TypeError`
(subscripting a non-dict), and `ValueError` (the local-validation errors of
models.py). -/
inductive PyError where
  | zenbaseAPIError : Json → PyError
  | keyError : String → PyError
  | typeError : String → PyError
  | valueError : String → PyError

/-- Python `str()` of a parsed-JSON value, as used when the clients interpolate
a value into an f-string or serialize a scalar form field.  Only the scalar
shapes the client actually passes (ints, strings, `None`) are rendered. -/
def pyStr : Json → String
  | .null => "None"
  | .num n => toString n
  | .str s => s
  | .obj _ => "<dict>"
  | .arr _ => "<list>"

/-- Python `str()` of an `Optional[int]` (`models.py` interpolates
`input_data.object_id` into its error messages). -/
def pyStrOptInt : Option Int → String
  | none => "None"
  | some n => toString n

-- ## models.py

/-- `BatchFunctionRunStatusEnum` of models.py. -/
inductive BatchFunctionRunStatusEnum where
  | FAILED
  | COMPLETED
  | RUNNING
  deriving Repr, DecidableEq

/-- `BatchFunctionRunStatus` of models.py. -/
structure BatchFunctionRunStatus where
  status : BatchFunctionRunStatusEnum
  total_runs : Int
  completed_runs : Int
  failed_runs : Int
  deriving Repr, DecidableEq

/-- `ZenbaseFunctionInput` of models.py: an `inputs` mapping plus an optional
caller-assigned `object_id`. -/
structure ZenbaseFunctionInput where
  inputs : Json
  object_id : Option Int

/-- `ZenbaseFunctionOutput` of models.py, as built by the page decoder: the
non-null payload and the correlating `object_id` of the page record. -/
structure ZenbaseFunctionOutput where
  outputs : Json
  object_id : Int

/-- `BatchFunctionRunResults` of models.py. -/
structure BatchFunctionRunResults where
  results : List ZenbaseFunctionOutput
  failed_object_ids : List Int

/-- `ZenbaseFunctionConfig` of models.py; every field is nullable, so each is
carried as the raw JSON value the server returned. -/
structure ZenbaseFunctionConfig where
  name : Json
  description : Json
  prompt : Json
  model_name : Json
  input_schema : Json
  output_schema : Json

/-- The loop body of `BatchFunctionInputList.check_valid` (models.py): walk
the items in order carrying the `object_ids` list built so far; the duplicate
check runs before the new id is appended, and the schema check runs after.
`matches_schema` stands for validation.py's wrapper around the external
jsonschema engine. -/
def check_valid_go (matches_schema : Json → Json → Bool) (input_schema : Json) :
    List (Option Int) → List ZenbaseFunctionInput → Except PyError Bool
  | _, [] => .ok true
  | object_ids, item :: rest =>
    if item.object_id ∈ object_ids then
      .error (.valueError ("Object ID " ++ pyStrOptInt item.object_id ++
        " already exists in the list"))
    else if matches_schema input_schema item.inputs then
      check_valid_go matches_schema input_schema (object_ids ++ [item.object_id]) rest
    else
      .error (.valueError ("Input data for object ID " ++ pyStrOptInt item.object_id ++
        " does not match the schema"))

/-- `BatchFunctionInputList.check_valid` of models.py, starting from an empty
`object_ids` accumulator. -/
def check_valid (matches_schema : Json → Json → Bool) (input_schema : Json)
    (items : List ZenbaseFunctionInput) : Except PyError Bool :=
  check_valid_go matches_schema input_schema [] items

-- ## helpers.py

/-- `clamp` of helpers.py: `max(min_value, min(value, max_value))`.  The call
site divides an integer by 2 with Python's true division, so the values are
rationals. -/
def clamp (value min_value max_value : ℚ) : ℚ :=
  max min_value (min value max_value)

/-- One record of a `function-run-logs` result page: its `object_id` and its
`outputs` field, where `none` is a JSON null. -/
structure PageRecord where
  object_id : Int
  outputs : Option Json

/-- One `function-run-logs` page response: the total record `count` and the
page's `results` array. -/
structure PageResponse where
  count : Nat
  results : List PageRecord

/-- `get_batch_optimizer_run_results_per_page` of helpers.py: for each record
in order, a null `outputs` sends the `object_id` to `failed_object_ids`, and
otherwise the record becomes a `ZenbaseFunctionOutput` carrying the nested
`outputs['output']` payload (a missing `'output'` key is a KeyError, and
subscripting a non-dict a TypeError, as in Python). -/
def get_batch_optimizer_run_results_per_page :
    List PageRecord → Except PyError BatchFunctionRunResults
  | [] => .ok ⟨[], []⟩
  | r :: rest =>
    match r.outputs with
    | none =>
      match get_batch_optimizer_run_results_per_page rest with
      | .error e => .error e
      | .ok res => .ok ⟨res.results, r.object_id :: res.failed_object_ids⟩
    | some o =>
      match o with
      | .obj fields =>
        match fields.lookup "output" with
        | none => .error (.keyError "output")
        | some payload =>
          match get_batch_optimizer_run_results_per_page rest with
          | .error e => .error e
          | .ok res => .ok ⟨⟨payload, r.object_id⟩ :: res.results, res.failed_object_ids⟩
      | _ => .error (.typeError "output subscript on a non-dict outputs value")

/-- The classification a well-formed record receives from the page decoder:
`none` for a failed record (null `outputs`), otherwise the success output
wrapping the nested `outputs['output']` payload. -/
def pageRecordSuccess (r : PageRecord) : Option ZenbaseFunctionOutput :=
  (r.outputs.bind (fun o => jsonGet o "output")).map (fun p => ⟨p, r.object_id⟩)

-- ## get_batch_optimizer_run_results: polling, pagination, reconciliation

/-- One step of building `Counter(xs).keys()`: record an id the first time it
is counted, keep the key list unchanged afterwards. -/
def dedupStep (acc : List Int) (x : Int) : List Int :=
  if x ∈ acc then acc else acc ++ [x]

/-- `list(Counter(xs).keys())` as used by AsyncZenbaseClient on the accumulated
`failed_object_ids`: a `collections.Counter` is a dict, so its keys keep
first-insertion order — the result drops every repeated id, keeping first-seen
order. -/
def dedupFirstSeen (xs : List Int) : List Int :=
  xs.foldl dedupStep []

/-- The per-poll recomputation of `next_sleep_time` inside both variants'
blocking loop: `clamp(n_remaining / 2, 5, 30)` with
`n_remaining = total_runs - completed_runs` (Python true division). -/
def next_sleep_after (st : BatchFunctionRunStatus) : ℚ :=
  clamp (((st.total_runs - st.completed_runs : Int) : ℚ) / 2) 5 30

/-- The `while batch_run_status.status == RUNNING` loop of
`get_batch_optimizer_run_results`: given the status seen so far, the remaining
poll responses the server will give, and the pending `next_sleep_time`, return
the terminal status together with the sleeps performed, or `none` when the
modeled response list runs out while the run is still RUNNING (the real loop
would keep polling). -/
def poll_loop : BatchFunctionRunStatus → List BatchFunctionRunStatus → ℚ →
    Option (BatchFunctionRunStatus × List ℚ)
  | st, later, next =>
    if st.status = .RUNNING then
      match later with
      | [] => none
      | r :: rest =>
        (poll_loop r rest (next_sleep_after r)).map (fun p => (p.1, next :: p.2))
    else
      some (st, [])

/-- The shared page-accumulation loop body: fetch each page number in order,
decode it, and extend the running aggregate's `results` and
`failed_object_ids` in fetch order. -/
def fetch_pages_loop (server : Nat → PageResponse) (pageNums : List Nat)
    (init : BatchFunctionRunResults) : Except PyError BatchFunctionRunResults :=
  match pageNums with
  | [] => .ok init
  | p :: rest =>
    match get_batch_optimizer_run_results_per_page (server p).results with
    | .error e => .error e
    | .ok pr =>
      fetch_pages_loop server rest
        ⟨init.results ++ pr.results, init.failed_object_ids ++ pr.failed_object_ids⟩

/-- The result-page phase of `ZenbaseClient.get_batch_optimizer_run_results`:
fetch page 1, read `count` from it, then loop
`for page in range(2, (count + 9) // 10)` — i.e. pages `2 .. ceil(count/10)-1`,
stopping short of the final page.  Returns the pages fetched in order and the
aggregate (no deduplication in the blocking variant). -/
def fetch_all_pages_sync (server : Nat → PageResponse) :
    Except PyError (List Nat × BatchFunctionRunResults) :=
  match get_batch_optimizer_run_results_per_page (server 1).results with
  | .error e => .error e
  | .ok first =>
    let count := (server 1).count
    let pageNums := List.range' 2 ((count + 9) / 10 - 2)
    match fetch_pages_loop server pageNums first with
    | .error e => .error e
    | .ok agg => .ok (1 :: pageNums, agg)

/-- The result-page phase of `AsyncZenbaseClient.get_batch_optimizer_run_results`:
fetch page 1, compute `total_pages = (count + 9) // 10`, loop
`for page in range(2, total_pages + 1)` — i.e. pages `2 .. ceil(count/10)` —
then replace `failed_object_ids` with `list(Counter(...).keys())`. -/
def fetch_all_pages_async (server : Nat → PageResponse) :
    Except PyError (List Nat × BatchFunctionRunResults) :=
  match get_batch_optimizer_run_results_per_page (server 1).results with
  | .error e => .error e
  | .ok first =>
    let count := (server 1).count
    let pageNums := List.range' 2 ((count + 9) / 10 + 1 - 2)
    match fetch_pages_loop server pageNums first with
    | .error e => .error e
    | .ok agg => .ok (1 :: pageNums, ⟨agg.results, dedupFirstSeen agg.failed_object_ids⟩)

/-- Outcome of a full `get_batch_optimizer_run_results` call: a value, a raised
error, or divergence (the poll loop never saw a terminal status within the
modeled responses). -/
inductive RunOutcome (α : Type) where
  | ok : α → RunOutcome α
  | err : PyError → RunOutcome α
  | diverge : RunOutcome α

/-- `ZenbaseClient.get_batch_optimizer_run_results`: one status poll, then
either the blocking loop (initial `next_sleep_time = 10`) or, non-blocking, a
`ZenbaseAPIError("Batch run not completed")` when still RUNNING; once
terminal, the blocking variant's pagination.  The value carries the sleeps
performed, the pages fetched in order, and the aggregate results. -/
def sync_get_batch_optimizer_run_results (st0 : BatchFunctionRunStatus)
    (later : List BatchFunctionRunStatus) (pages : Nat → PageResponse)
    (block_until_completed : Bool) :
    RunOutcome (List ℚ × List Nat × BatchFunctionRunResults) :=
  if block_until_completed then
    match poll_loop st0 later 10 with
    | none => .diverge
    | some (_, sleeps) =>
      match fetch_all_pages_sync pages with
      | .error e => .err e
      | .ok (ps, res) => .ok (sleeps, ps, res)
  else
    if st0.status = .RUNNING then
      .err (.zenbaseAPIError (.str "Batch run not completed"))
    else
      match fetch_all_pages_sync pages with
      | .error e => .err e
      | .ok (ps, res) => .ok ([], ps, res)

/-- `AsyncZenbaseClient.get_batch_optimizer_run_results`: identical polling and
non-blocking check, but the non-blocking variant's pagination (all pages, then
failed-id deduplication). -/
def async_get_batch_optimizer_run_results (st0 : BatchFunctionRunStatus)
    (later : List BatchFunctionRunStatus) (pages : Nat → PageResponse)
    (block_until_completed : Bool) :
    RunOutcome (List ℚ × List Nat × BatchFunctionRunResults) :=
  if block_until_completed then
    match poll_loop st0 later 10 with
    | none => .diverge
    | some (_, sleeps) =>
      match fetch_all_pages_async pages with
      | .error e => .err e
      | .ok (ps, res) => .ok (sleeps, ps, res)
  else
    if st0.status = .RUNNING then
      .err (.zenbaseAPIError (.str "Batch run not completed"))
    else
      match fetch_all_pages_async pages with
      | .error e => .err e
      | .ok (ps, res) => .ok ([], ps, res)

/-- The pages a run fetched, when it returned a value. -/
def runPagesFetched :
    RunOutcome (List ℚ × List Nat × BatchFunctionRunResults) → Option (List Nat)
  | .ok (_, ps, _) => some ps
  | _ => none

/-- The `failed_object_ids` a run returned, when it returned a value. -/
def runFailedIds :
    RunOutcome (List ℚ × List Nat × BatchFunctionRunResults) → Option (List Int)
  | .ok (_, _, r) => some r.failed_object_ids
  | _ => none

/-- The success payloads `(outputs['output'], object_id)` a run returned, when
it returned a value, projected onto the ids so results stay comparable. -/
def runResultIds :
    RunOutcome (List ℚ × List Nat × BatchFunctionRunResults) → Option (List Int)
  | .ok (_, _, r) => some (r.results.map (·.object_id))
  | _ => none

-- ## Identity caches

/-- Python dict assignment `m[k] = v`: replace the entry when the key exists,
append it otherwise (insertion order preserved). -/
def dictSet {α β : Type} [DecidableEq α] : List (α × β) → α → β → List (α × β)
  | [], k, v => [(k, v)]
  | (k', v') :: t, k, v =>
    if k' = k then (k, v) :: t else (k', v') :: dictSet t k v

/-- `ZenbaseClient.get_optimizer_function_id`: serve a cache hit directly (the
`update_cache` flag is never consulted on a hit); on a miss, fetch
`optimizer-configurations/{id}`; when `'id'` is absent the raise site
`ZenbaseAPIError(response['detail'])` first subscripts `'detail'` — a KeyError
when that is also absent; otherwise return `response['function']`, writing it
back only when `update_cache` holds.  The value carries the result, the cache
after the call, and how many fetches were issued. -/
def sync_get_optimizer_function_id (server : Int → JsonDict)
    (cache : List (Int × Json)) (optimizer_id : Int) (update_cache : Bool) :
    Except PyError (Json × List (Int × Json) × Nat) :=
  match cache.lookup optimizer_id with
  | some v => .ok (v, cache, 0)
  | none =>
    let response := server optimizer_id
    match dictGet response "id" with
    | none =>
      match dictGet response "detail" with
      | none => .error (.keyError "detail")
      | some d => .error (.zenbaseAPIError d)
    | some _ =>
      match dictGet response "function" with
      | none => .error (.keyError "function")
      | some f =>
        .ok (f, if update_cache then dictSet cache optimizer_id f else cache, 1)

/-- `AsyncZenbaseClient.get_optimizer_function_id`: identical to the blocking
variant except the missing-`'id'` raise site uses
`response.get('detail', "Unknown response format")`, so a missing `'detail'`
still yields the typed error. -/
def async_get_optimizer_function_id (server : Int → JsonDict)
    (cache : List (Int × Json)) (optimizer_id : Int) (update_cache : Bool) :
    Except PyError (Json × List (Int × Json) × Nat) :=
  match cache.lookup optimizer_id with
  | some v => .ok (v, cache, 0)
  | none =>
    let response := server optimizer_id
    match dictGet response "id" with
    | none =>
      .error (.zenbaseAPIError
        (match dictGet response "detail" with
         | some d => d
         | none => .str "Unknown response format"))
    | some _ =>
      match dictGet response "function" with
      | none => .error (.keyError "function")
      | some f =>
        .ok (f, if update_cache then dictSet cache optimizer_id f else cache, 1)

/-- `ZenbaseClient.get_function_config`: cache hit served directly; on a miss,
fetch `functions/{id}`, check `'id'` (the raise site subscripts `'detail'` as
in `get_optimizer_function_id`), build the config from the six response fields
(each subscript a KeyError when absent, in source order), and write back only
when `update_cache` holds. -/
def sync_get_function_config (server : Int → JsonDict)
    (cache : List (Int × ZenbaseFunctionConfig)) (function_id : Int)
    (update_cache : Bool) :
    Except PyError (ZenbaseFunctionConfig × List (Int × ZenbaseFunctionConfig) × Nat) :=
  match cache.lookup function_id with
  | some v => .ok (v, cache, 0)
  | none =>
    let response := server function_id
    match dictGet response "id" with
    | none =>
      match dictGet response "detail" with
      | none => .error (.keyError "detail")
      | some d => .error (.zenbaseAPIError d)
    | some _ =>
      match dictGet response "name" with
      | none => .error (.keyError "name")
      | some nm =>
      match dictGet response "description" with
      | none => .error (.keyError "description")
      | some ds =>
      match dictGet response "prompt" with
      | none => .error (.keyError "prompt")
      | some pr =>
      match dictGet response "input_schema" with
      | none => .error (.keyError "input_schema")
      | some isch =>
      match dictGet response "output_schema" with
      | none => .error (.keyError "output_schema")
      | some osch =>
      match dictGet response "model" with
      | none => .error (.keyError "model")
      | some mdl =>
        let cfg : ZenbaseFunctionConfig := ⟨nm, ds, pr, mdl, isch, osch⟩
        .ok (cfg, if update_cache then dictSet cache function_id cfg else cache, 1)

/-- `AsyncZenbaseClient.get_function_config`: identical to the blocking variant
except the missing-`'id'` raise site defaults to "Unknown response format". -/
def async_get_function_config (server : Int → JsonDict)
    (cache : List (Int × ZenbaseFunctionConfig)) (function_id : Int)
    (update_cache : Bool) :
    Except PyError (ZenbaseFunctionConfig × List (Int × ZenbaseFunctionConfig) × Nat) :=
  match cache.lookup function_id with
  | some v => .ok (v, cache, 0)
  | none =>
    let response := server function_id
    match dictGet response "id" with
    | none =>
      .error (.zenbaseAPIError
        (match dictGet response "detail" with
         | some d => d
         | none => .str "Unknown response format"))
    | some _ =>
      match dictGet response "name" with
      | none => .error (.keyError "name")
      | some nm =>
      match dictGet response "description" with
      | none => .error (.keyError "description")
      | some ds =>
      match dictGet response "prompt" with
      | none => .error (.keyError "prompt")
      | some pr =>
      match dictGet response "input_schema" with
      | none => .error (.keyError "input_schema")
      | some isch =>
      match dictGet response "output_schema" with
      | none => .error (.keyError "output_schema")
      | some osch =>
      match dictGet response "model" with
      | none => .error (.keyError "model")
      | some mdl =>
        let cfg : ZenbaseFunctionConfig := ⟨nm, ds, pr, mdl, isch, osch⟩
        .ok (cfg, if update_cache then dictSet cache function_id cfg else cache, 1)

/-- `ZenbaseClient.get_batch_run_function_id`: serve the
`batch_run_id → function_id` cache when it hits (the id may be an int or a
string); on a miss with an integer id, fetch `batch-run/{id}`, subscript its
`'configuration'` field (KeyError when absent — the boundary types it as the
optimizer id the spec documents), resolve through
`get_optimizer_function_id`, and cache; a non-integer uncached id raises
`ZenbaseAPIError("Batch run ID {id} not found in local batch run history.")`
without any network call. -/
def get_batch_run_function_id (server_run : Int → Option Int)
    (server_opt : Int → JsonDict) (brCache : List ((Int ⊕ String) × Json))
    (optCache : List (Int × Json)) (batch_run_id : Int ⊕ String) :
    Except PyError (Json × List ((Int ⊕ String) × Json) × List (Int × Json)) :=
  match brCache.lookup batch_run_id with
  | some v => .ok (v, brCache, optCache)
  | none =>
    match batch_run_id with
    | .inl n =>
      match server_run n with
      | none => .error (.keyError "configuration")
      | some optimizer_id =>
        match sync_get_optimizer_function_id server_opt optCache optimizer_id true with
        | .error e => .error e
        | .ok (fid, optCache', _) =>
          .ok (fid, dictSet brCache (.inl n) fid, optCache')
    | .inr s =>
      .error (.zenbaseAPIError
        (.str ("Batch run ID " ++ s ++ " not found in local batch run history.")))

-- ## Transport boundary: request construction

/-- Python's `str.lstrip('/')`: drop every leading slash. -/
def lstripSlashes (s : String) : String :=
  ⟨s.data.dropWhile (· = '/')⟩

/-- Dropping every trailing slash, the trim the spec prescribes for the base
URL. -/
def rstripSlashes (s : String) : String :=
  ⟨(s.data.reverse.dropWhile (· = '/')).reverse⟩

/-- Modelled from the spec: "Base URL concatenation: `base_url` with trailing
slash trimmed, endpoint with leading slash trimmed, joined by one slash."
Stated for comparison with the URL the clients actually build. -/
def spec_join_url (base_url endpoint : String) : String :=
  rstripSlashes base_url ++ "/" ++ lstripSlashes endpoint

/-- One multipart file part in the `(filename, filehandle, content_type)`
shape helpers.py's `make_batch_input_file` produces, the only shape the
clients construct; the handle's bytes are carried as a string. -/
structure FilePart where
  field : String
  filename : String
  content : String
  contentType : String
  deriving Repr, DecidableEq

/-- `make_batch_input_file` of helpers.py, after the JSON dump of the input
list: a single `'file'` part named `batch_input.json` of media type
`application/json`. -/
def make_batch_input_file (jsonText : String) : List FilePart :=
  [⟨"file", "batch_input.json", jsonText, "application/json"⟩]

/-- The request either client hands to its HTTP library: URL, headers in
insertion order, and either a JSON body or multipart form fields plus file
parts. -/
structure BuiltRequest where
  method : String
  url : String
  headers : List (String × String)
  jsonBody : Option JsonDict
  formFields : List (String × String)
  fileParts : List FilePart

/-- Python truthiness of the optional `files` dict: `not files` also holds for
an empty dict. -/
def filesFalsy (files : Option (List FilePart)) : Bool :=
  match files with
  | none => true
  | some l => l.isEmpty

/-- The request construction of `ZenbaseClient._make_request`:
`url = f"{base_url}/{endpoint.lstrip('/')}"`; headers are `Authorization:
Api-Key <key>` always and `Content-Type: application/json` exactly when
`not files`; with files the call sends `data` (or `{}` when falsy) as form
fields — scalar values serialized to strings by the transport library —
alongside the file parts, otherwise it sends `data` as the JSON body. -/
def sync_make_request (base_url api_key method endpoint : String)
    (data : Option JsonDict) (files : Option (List FilePart)) : BuiltRequest :=
  let url := base_url ++ "/" ++ lstripSlashes endpoint
  let headers := [("Authorization", "Api-Key " ++ api_key)] ++
    (if filesFalsy files then [("Content-Type", "application/json")] else [])
  if filesFalsy files then
    { method := method, url := url, headers := headers,
      jsonBody := data, formFields := [], fileParts := [] }
  else
    let form_data := match data with | none => [] | some d => d
    { method := method, url := url, headers := headers,
      jsonBody := none,
      formFields := form_data.map (fun kv => (kv.1, pyStr kv.2)),
      fileParts := match files with | none => [] | some l => l }

/-- The request construction of `AsyncZenbaseClient._make_async_request`: the
same URL f-string; `Authorization` always and, on the no-files path,
`Content-Type: application/json`; with files an `aiohttp.FormData` holding
each `data` field as `str(value)` plus each 3-tuple file part, otherwise
`data` as the JSON body. -/
def async_make_request (base_url api_key method endpoint : String)
    (data : Option JsonDict) (files : Option (List FilePart)) : BuiltRequest :=
  let url := base_url ++ "/" ++ lstripSlashes endpoint
  if filesFalsy files then
    { method := method, url := url,
      headers := [("Authorization", "Api-Key " ++ api_key),
                  ("Content-Type", "application/json")],
      jsonBody := data, formFields := [], fileParts := [] }
  else
    let fields : JsonDict := match data with | none => [] | some d => d
    { method := method, url := url,
      headers := [("Authorization", "Api-Key " ++ api_key)],
      jsonBody := none,
      formFields := fields.map (fun kv => (kv.1, pyStr kv.2)),
      fileParts := match files with | none => [] | some l => l }

-- ## Concrete scenario: a terminal run with count = 25 and repeated failures

/-- A server whose first result page reports `count = 25`
(`ceil(25/10) = 3` pages): object ids 3 and 5 fail on page 1, ids 3, 7 and 5
fail on page 2, and id 9 succeeds on page 3 with payload 42. -/
def cexServer : Nat → PageResponse
  | 1 => ⟨25, [⟨3, none⟩, ⟨5, none⟩]⟩
  | 2 => ⟨25, [⟨3, none⟩, ⟨7, none⟩, ⟨5, none⟩]⟩
  | 3 => ⟨25, [⟨9, some (.obj [("output", .num 42)])⟩]⟩
  | _ => ⟨25, []⟩

/-- A status poll response reporting the run terminal. -/
def cexTerminalStatus : BatchFunctionRunStatus := ⟨.COMPLETED, 25, 25, 0⟩

/-- C1: on a terminal run whose first page reports `count = 25`, the blocking
`get_batch_optimizer_run_results` fetches pages 1 and 2 only — its
`range(2, (count + 9) // 10)` loop stops short of page `ceil(25/10) = 3` — so
the page-3 success and its failures are lost, while the non-blocking variant
fetches pages 1, 2, 3 as the claim states (and deduplicates the failed ids).
This evaluates both variants at the failing input. -/
theorem C1_sync_drops_last_page :
    sync_get_batch_optimizer_run_results cexTerminalStatus [] cexServer true
        = .ok ([], [1, 2], ⟨[], [3, 5, 3, 7, 5]⟩)
      ∧ async_get_batch_optimizer_run_results cexTerminalStatus [] cexServer true
        = .ok ([], [1, 2, 3], ⟨[⟨.num 42, 9⟩], [3, 5, 7]⟩) :=
  ⟨rfl, rfl⟩

/-- C2 counterexample: for one identical input — the same terminal status and
the same server pages (`count = 25`) — the blocking and non-blocking clients
fetch different page lists and return different `failed_object_ids`, so the
two variants are not behaviorally identical. -/
theorem C2_counterexample :
    runPagesFetched (sync_get_batch_optimizer_run_results cexTerminalStatus [] cexServer true)
        ≠ runPagesFetched (async_get_batch_optimizer_run_results cexTerminalStatus [] cexServer true)
      ∧ runFailedIds (sync_get_batch_optimizer_run_results cexTerminalStatus [] cexServer true)
        ≠ runFailedIds (async_get_batch_optimizer_run_results cexTerminalStatus [] cexServer true) := by
  constructor <;> decide

/-- C3 counterexample: the blocking `get_batch_optimizer_run_results` returns
the accumulated `failed_object_ids` `[3, 5, 3, 7, 5]` — ids 3 and 5 failed on
both fetched pages and are reported twice — so the blocking variant does not
deduplicate. -/
theorem C3_sync_keeps_duplicates :
    runFailedIds (sync_get_batch_optimizer_run_results cexTerminalStatus [] cexServer true)
        = some [3, 5, 3, 7, 5]
      ∧ ¬ ([3, 5, 3, 7, 5] : List Int).Nodup :=
  ⟨rfl, by decide⟩

-- ### First-seen deduplication lemmas

theorem mem_dedupStep_left {a : Int} {acc : List Int} (y : Int) (h : a ∈ acc) :
    a ∈ dedupStep acc y := by
  unfold dedupStep; split
  · exact h
  · exact List.mem_append_left _ h

theorem dedupStep_cons (acc : List Int) (x y : Int) (h : y ≠ x) :
    dedupStep (x :: acc) y = x :: dedupStep acc y := by
  by_cases hy : y ∈ acc
  · simp [dedupStep, hy, h]
  · simp [dedupStep, hy, h]

theorem foldl_dedupStep_skip :
    ∀ (t acc : List Int) (x : Int), x ∈ acc →
      t.foldl dedupStep acc = (t.filter (fun y => decide (y ≠ x))).foldl dedupStep acc := by
  intro t
  induction t with
  | nil => intro acc x _; rfl
  | cons y t' ih =>
    intro acc x hx
    by_cases hyx : y = x
    · subst hyx
      have hfil : (y :: t').filter (fun z => decide (z ≠ y))
          = t'.filter (fun z => decide (z ≠ y)) := by
        simp [List.filter_cons]
      have hstep : dedupStep acc y = acc := by simp [dedupStep, hx]
      rw [hfil, List.foldl_cons, hstep]
      exact ih acc y hx
    · have hfil : (y :: t').filter (fun z => decide (z ≠ x))
          = y :: t'.filter (fun z => decide (z ≠ x)) := by
        simp [List.filter_cons, hyx]
      rw [hfil, List.foldl_cons, List.foldl_cons]
      exact ih (dedupStep acc y) x (mem_dedupStep_left y hx)

theorem foldl_dedupStep_cons :
    ∀ (t acc : List Int) (x : Int), x ∉ t →
      t.foldl dedupStep (x :: acc) = x :: t.foldl dedupStep acc := by
  intro t
  induction t with
  | nil => intro acc x _; rfl
  | cons y t' ih =>
    intro acc x hx
    have hyx : y ≠ x := fun h => hx (h ▸ List.mem_cons_self y t')
    rw [List.foldl_cons, List.foldl_cons, dedupStep_cons acc x y hyx]
    exact ih (dedupStep acc y) x (fun h => hx (List.mem_cons_of_mem _ h))

theorem dedupFirstSeen_cons (x : Int) (xs : List Int) :
    dedupFirstSeen (x :: xs) = x :: dedupFirstSeen (xs.filter (fun y => decide (y ≠ x))) := by
  unfold dedupFirstSeen
  rw [List.foldl_cons, show dedupStep [] x = [x] by simp [dedupStep],
    foldl_dedupStep_skip xs [x] x (List.mem_singleton_self x)]
  exact foldl_dedupStep_cons _ [] x (by simp)

theorem mem_foldl_dedupStep :
    ∀ (t acc : List Int) (a : Int), a ∈ t.foldl dedupStep acc ↔ a ∈ acc ∨ a ∈ t := by
  intro t
  induction t with
  | nil => intro acc a; simp
  | cons y t' ih =>
    intro acc a
    rw [List.foldl_cons, ih]
    constructor
    · rintro (h | h)
      · unfold dedupStep at h; split at h
        · exact Or.inl h
        · rcases List.mem_append.1 h with h' | h'
          · exact Or.inl h'
          · simp only [List.mem_singleton] at h'
            exact Or.inr (h' ▸ List.mem_cons_self _ _)
      · exact Or.inr (List.mem_cons_of_mem _ h)
    · rintro (h | h)
      · exact Or.inl (mem_dedupStep_left y h)
      · rcases List.mem_cons.1 h with h' | h'
        · subst h'
          left
          unfold dedupStep; split
          · assumption
          · exact List.mem_append_right _ (List.mem_singleton_self a)
        · exact Or.inr h'

theorem nodup_foldl_dedupStep :
    ∀ (t acc : List Int), acc.Nodup → (t.foldl dedupStep acc).Nodup := by
  intro t
  induction t with
  | nil => intro acc h; exact h
  | cons y t' ih =>
    intro acc h
    rw [List.foldl_cons]
    apply ih
    unfold dedupStep; split
    · exact h
    · rename_i hy
      simp [List.nodup_append, h, hy]

theorem foldl_dedupStep_sublist :
    ∀ (t acc : List Int), List.Sublist (t.foldl dedupStep acc) (acc ++ t) := by
  intro t
  induction t with
  | nil => intro acc; simp
  | cons y t' ih =>
    intro acc
    rw [List.foldl_cons]
    refine (ih (dedupStep acc y)).trans ?_
    unfold dedupStep; split
    · exact List.Sublist.append_left (List.sublist_cons_self y t') acc
    · rw [List.append_assoc, List.singleton_append]

/-- C3 (amended): the non-blocking `get_batch_optimizer_run_results` returns
`failed_object_ids` with duplicates removed preserving first-seen order (the
dedup keeps the head and recurses on the tail with all later copies dropped;
the result has no duplicates, is a subsequence of the accumulated list, and
keeps exactly its members), and `[3, 5, 3, 7, 5]` reduces to `[3, 5, 7]`; the
blocking variant, by contrast, returns the accumulated list without
deduplication (its counterexample). -/
theorem C3_async_first_seen_dedup :
    (∀ x xs, dedupFirstSeen (x :: xs)
        = x :: dedupFirstSeen (xs.filter (fun y => decide (y ≠ x))))
      ∧ (∀ xs, (dedupFirstSeen xs).Nodup ∧ List.Sublist (dedupFirstSeen xs) xs
          ∧ ∀ a, a ∈ dedupFirstSeen xs ↔ a ∈ xs)
      ∧ (∀ server ps res, fetch_all_pages_async server = .ok (ps, res) →
          res.failed_object_ids.Nodup)
      ∧ dedupFirstSeen [3, 5, 3, 7, 5] = [3, 5, 7] := by
  refine ⟨dedupFirstSeen_cons, ?_, ?_, by decide⟩
  · intro xs
    refine ⟨nodup_foldl_dedupStep xs [] List.nodup_nil, ?_, ?_⟩
    · simpa using foldl_dedupStep_sublist xs []
    · intro a; simpa using mem_foldl_dedupStep xs [] a
  · intro server ps res h
    unfold fetch_all_pages_async at h
    split at h
    · exact absurd h (by simp)
    · dsimp only at h
      split at h
      · exact absurd h (by simp)
      · cases h
        exact nodup_foldl_dedupStep _ [] List.nodup_nil

/-- Witness for C3's amended theorem: at the concrete `count = 25` server the
non-blocking variant's returned failed ids `[3, 5, 7]` are duplicate-free. -/
theorem C3_witness : ([3, 5, 7] : List Int).Nodup :=
  C3_async_first_seen_dedup.2.2.1 cexServer [1, 2, 3]
    ⟨[⟨.num 42, 9⟩], [3, 5, 7]⟩ rfl

-- ### Adaptive backoff

theorem clamp_bounds (v : ℚ) : 5 ≤ clamp v 5 30 ∧ clamp v 5 30 ≤ 30 :=
  ⟨le_max_left _ _, max_le (by norm_num) (min_le_right _ _)⟩

theorem next_sleep_after_bounds (st : BatchFunctionRunStatus) :
    5 ≤ next_sleep_after st ∧ next_sleep_after st ≤ 30 :=
  clamp_bounds _

theorem poll_loop_sleeps_mem :
    ∀ (later : List BatchFunctionRunStatus) (st : BatchFunctionRunStatus)
      (next : ℚ) (stFin : BatchFunctionRunStatus) (sleeps : List ℚ),
      poll_loop st later next = some (stFin, sleeps) →
      ∀ q ∈ sleeps, q = next ∨ ∃ st' ∈ later, q = next_sleep_after st' := by
  intro later
  induction later with
  | nil =>
    intro st next stFin sleeps h q hq
    unfold poll_loop at h
    split at h
    · exact absurd h (by simp)
    · cases h; simp at hq
  | cons r rest ih =>
    intro st next stFin sleeps h q hq
    unfold poll_loop at h
    split at h
    · dsimp only at h
      cases hp : poll_loop r rest (next_sleep_after r) with
      | none => rw [hp] at h; exact absurd h (by simp)
      | some p =>
        obtain ⟨stFin', sl'⟩ := p
        rw [hp] at h
        simp only [Option.map_some'] at h
        cases h
        rcases List.mem_cons.1 hq with h' | h'
        · exact Or.inl h'
        · rcases ih r (next_sleep_after r) _ _ hp q h' with h'' | ⟨st', hst', h''⟩
          · exact Or.inr ⟨r, List.mem_cons_self _ _, h''⟩
          · exact Or.inr ⟨st', List.mem_cons_of_mem _ hst', h''⟩
    · cases h; simp at hq

/-- C6: in the blocking poll loop of `get_batch_optimizer_run_results` for a
run whose first status is RUNNING, the sleeps performed start with exactly 10,
and every later sleep is `next_sleep_after` of one of the polled statuses —
`clamp((total_runs - completed_runs) / 2, 5, 30)` — hence lies in `[5, 30]`;
concretely, `total_runs = 100` with `completed_runs` 80, 0 and 99 gives next
sleeps 10, 30 and 5. -/
theorem C6_adaptive_backoff :
    ∀ (st0 : BatchFunctionRunStatus) (later : List BatchFunctionRunStatus)
      (pages : Nat → PageResponse) (sleeps : List ℚ) (ps : List Nat)
      (res : BatchFunctionRunResults),
      st0.status = .RUNNING →
      sync_get_batch_optimizer_run_results st0 later pages true
        = .ok (sleeps, ps, res) →
      (∃ rest, sleeps = 10 :: rest ∧ ∀ q ∈ rest,
          (∃ st' ∈ later, q = next_sleep_after st') ∧ 5 ≤ q ∧ q ≤ 30)
        ∧ next_sleep_after ⟨.RUNNING, 100, 80, 0⟩ = 10
        ∧ next_sleep_after ⟨.RUNNING, 100, 0, 0⟩ = 30
        ∧ next_sleep_after ⟨.RUNNING, 100, 99, 0⟩ = 5 := by
  intro st0 later pages sleeps ps res hrun h
  refine ⟨?_, ?_, ?_, ?_⟩
  · unfold sync_get_batch_optimizer_run_results at h
    rw [if_pos rfl] at h
    cases hp : poll_loop st0 later 10 with
    | none => rw [hp] at h; exact absurd h (by simp)
    | some p =>
      obtain ⟨stFin, sleeps'⟩ := p
      rw [hp] at h
      cases hf : fetch_all_pages_sync pages with
      | error e => rw [hf] at h; exact absurd h (by simp)
      | ok pr =>
        obtain ⟨ps', res'⟩ := pr
        rw [hf] at h
        cases h
        cases later with
        | nil =>
          unfold poll_loop at hp
          rw [if_pos hrun] at hp
          exact absurd hp (by simp)
        | cons r t =>
          unfold poll_loop at hp
          rw [if_pos hrun] at hp
          dsimp only at hp
          cases hq : poll_loop r t (next_sleep_after r) with
          | none => rw [hq] at hp; exact absurd hp (by simp)
          | some p2 =>
            obtain ⟨stFin2, sl2⟩ := p2
            rw [hq] at hp
            simp only [Option.map_some'] at hp
            cases hp
            refine ⟨sl2, rfl, ?_⟩
            intro q hql
            rcases poll_loop_sleeps_mem t r (next_sleep_after r) _ _ hq q hql with
              h' | ⟨st', hst', h'⟩
            · exact ⟨⟨r, List.mem_cons_self _ _, h'⟩,
                h' ▸ next_sleep_after_bounds r⟩
            · exact ⟨⟨st', List.mem_cons_of_mem _ hst', h'⟩,
                h' ▸ next_sleep_after_bounds st'⟩
  · norm_num [next_sleep_after, clamp, min_def, max_def]
  · norm_num [next_sleep_after, clamp, min_def, max_def]
  · norm_num [next_sleep_after, clamp, min_def, max_def]

/-- Witness for C6: a RUNNING run polled twice (statuses RUNNING with 80 of
100 complete, then COMPLETED) sleeps `[10, 10]` — first sleep exactly 10,
second clamp(20/2, 5, 30) = 10. -/
theorem C6_witness :
    ∃ rest, ([10, 10] : List ℚ) = 10 :: rest ∧ ∀ q ∈ rest,
        (∃ st' ∈ ([⟨.RUNNING, 100, 80, 0⟩, ⟨.COMPLETED, 100, 100, 0⟩] :
            List BatchFunctionRunStatus), q = next_sleep_after st')
          ∧ 5 ≤ q ∧ q ≤ 30 :=
  (C6_adaptive_backoff ⟨.RUNNING, 100, 0, 0⟩
    [⟨.RUNNING, 100, 80, 0⟩, ⟨.COMPLETED, 100, 100, 0⟩]
    (fun _ => ⟨0, []⟩) [10, 10] [1] ⟨[], []⟩ rfl
    (by norm_num [sync_get_batch_optimizer_run_results, poll_loop,
      next_sleep_after, clamp, fetch_all_pages_sync, fetch_pages_loop,
      get_batch_optimizer_run_results_per_page, min_def, max_def,
      show BatchFunctionRunStatusEnum.COMPLETED ≠ .RUNNING from by decide,
      show BatchFunctionRunStatusEnum.RUNNING = .RUNNING from rfl])).1

-- ### Page decoding

/-- C7: whenever the page decoder succeeds, its `failed_object_ids` are
exactly the ids of the records whose `outputs` is null, in record order, and
its successes are exactly the remaining records wrapped around their nested
`outputs['output']` payload, in record order. -/
theorem C7_page_decode :
    ∀ (rs : List PageRecord) (succ : List ZenbaseFunctionOutput) (failed : List Int),
      get_batch_optimizer_run_results_per_page rs = .ok ⟨succ, failed⟩ →
      failed = (rs.filter (fun r => r.outputs.isNone)).map (·.object_id)
        ∧ succ = rs.filterMap pageRecordSuccess := by
  intro rs
  induction rs with
  | nil => intro succ failed h; cases h; exact ⟨rfl, rfl⟩
  | cons r rest ih =>
    intro succ failed h
    unfold get_batch_optimizer_run_results_per_page at h
    cases ho : r.outputs with
    | none =>
      rw [ho] at h
      dsimp only at h
      cases hd : get_batch_optimizer_run_results_per_page rest with
      | error e => rw [hd] at h; exact absurd h (by simp)
      | ok res =>
        obtain ⟨res1, res2⟩ := res
        rw [hd] at h
        cases h
        obtain ⟨h1, h2⟩ := ih res1 res2 hd
        constructor
        · simp [List.filter_cons, ho, h1]
        · simp [List.filterMap_cons, pageRecordSuccess, ho, h2]
    | some o =>
      rw [ho] at h
      cases o with
      | obj fields =>
        dsimp only at h
        cases hl : fields.lookup "output" with
        | none => rw [hl] at h; exact absurd h (by simp)
        | some payload =>
          rw [hl] at h
          cases hd : get_batch_optimizer_run_results_per_page rest with
          | error e => rw [hd] at h; exact absurd h (by simp)
          | ok res =>
            obtain ⟨res1, res2⟩ := res
            rw [hd] at h
            cases h
            obtain ⟨h1, h2⟩ := ih res1 res2 hd
            constructor
            · simp [List.filter_cons, ho, h1]
            · simp [List.filterMap_cons, pageRecordSuccess, jsonGet, ho, hl, h2]
      | null => exact absurd h (by simp)
      | num n => exact absurd h (by simp)
      | str s => exact absurd h (by simp)
      | arr l => exact absurd h (by simp)

/-- Witness for C7: the mixed page
`[{object_id: 1, outputs: null}, {object_id: 2, outputs: {output: {a: 1}}}]`
decodes to successes `[{object_id: 2, outputs: {a: 1}}]` and failed ids `[1]`. -/
theorem C7_witness :
    ([1] : List Int)
        = (([⟨1, none⟩, ⟨2, some (.obj [("output", .obj [("a", .num 1)])])⟩] :
            List PageRecord).filter (fun r => r.outputs.isNone)).map (·.object_id)
      ∧ [(⟨.obj [("a", .num 1)], 2⟩ : ZenbaseFunctionOutput)]
        = ([⟨1, none⟩, ⟨2, some (.obj [("output", .obj [("a", .num 1)])])⟩] :
            List PageRecord).filterMap pageRecordSuccess :=
  C7_page_decode [⟨1, none⟩, ⟨2, some (.obj [("output", .obj [("a", .num 1)])])⟩]
    [⟨.obj [("a", .num 1)], 2⟩] [1] rfl

-- ### Identity-cache semantics

theorem lookup_dictSet_self {α β : Type} [DecidableEq α] :
    ∀ (m : List (α × β)) (k : α) (v : β), (dictSet m k v).lookup k = some v := by
  intro m k v
  induction m with
  | nil => simp [dictSet, List.lookup]
  | cons p t ih =>
    obtain ⟨k', v'⟩ := p
    by_cases h : k' = k
    · subst h; simp [dictSet, List.lookup]
    · have hb : (k == k') = false := beq_eq_false_iff_ne.mpr (fun hk => h hk.symm)
      simp [dictSet, h, List.lookup, hb, ih]

/-- C8: for both identity mappings (optimizer-id to function-id, function-id
to function-config), in both client variants: a populated cache entry is
always served directly with no fetch and no cache change, whatever the
`update_cache` flag; on a miss (with a well-formed response) the default call
fetches once and writes back, after which a second call for the same id is
served from cache with the identical value and no further fetch; and with
`update_cache = false` the fetch still happens but the cache is left
untouched. -/
theorem C8_cache_semantics :
    (∀ (server : Int → JsonDict) (cache : List (Int × Json)) (oid : Int)
        (v : Json) (u : Bool), cache.lookup oid = some v →
        sync_get_optimizer_function_id server cache oid u = .ok (v, cache, 0)
          ∧ async_get_optimizer_function_id server cache oid u = .ok (v, cache, 0))
      ∧ (∀ (server : Int → JsonDict) (cache : List (Int × ZenbaseFunctionConfig))
          (fid : Int) (v : ZenbaseFunctionConfig) (u : Bool),
          cache.lookup fid = some v →
          sync_get_function_config server cache fid u = .ok (v, cache, 0)
            ∧ async_get_function_config server cache fid u = .ok (v, cache, 0))
      ∧ (∀ (server : Int → JsonDict) (cache : List (Int × Json)) (oid : Int)
          (idv f : Json) (u : Bool),
          cache.lookup oid = none →
          dictGet (server oid) "id" = some idv →
          dictGet (server oid) "function" = some f →
          (sync_get_optimizer_function_id server cache oid true
              = .ok (f, dictSet cache oid f, 1)
            ∧ sync_get_optimizer_function_id server (dictSet cache oid f) oid u
              = .ok (f, dictSet cache oid f, 0)
            ∧ sync_get_optimizer_function_id server cache oid false = .ok (f, cache, 1))
          ∧ (async_get_optimizer_function_id server cache oid true
              = .ok (f, dictSet cache oid f, 1)
            ∧ async_get_optimizer_function_id server (dictSet cache oid f) oid u
              = .ok (f, dictSet cache oid f, 0)
            ∧ async_get_optimizer_function_id server cache oid false = .ok (f, cache, 1)))
      ∧ (∀ (server : Int → JsonDict) (cache : List (Int × ZenbaseFunctionConfig))
          (fid : Int) (idv nm ds pr isch osch mdl : Json) (u : Bool),
          cache.lookup fid = none →
          dictGet (server fid) "id" = some idv →
          dictGet (server fid) "name" = some nm →
          dictGet (server fid) "description" = some ds →
          dictGet (server fid) "prompt" = some pr →
          dictGet (server fid) "input_schema" = some isch →
          dictGet (server fid) "output_schema" = some osch →
          dictGet (server fid) "model" = some mdl →
          (sync_get_function_config server cache fid true
              = .ok (⟨nm, ds, pr, mdl, isch, osch⟩,
                  dictSet cache fid ⟨nm, ds, pr, mdl, isch, osch⟩, 1)
            ∧ sync_get_function_config server
                (dictSet cache fid ⟨nm, ds, pr, mdl, isch, osch⟩) fid u
              = .ok (⟨nm, ds, pr, mdl, isch, osch⟩,
                  dictSet cache fid ⟨nm, ds, pr, mdl, isch, osch⟩, 0)
            ∧ sync_get_function_config server cache fid false
              = .ok (⟨nm, ds, pr, mdl, isch, osch⟩, cache, 1))
          ∧ (async_get_function_config server cache fid true
              = .ok (⟨nm, ds, pr, mdl, isch, osch⟩,
                  dictSet cache fid ⟨nm, ds, pr, mdl, isch, osch⟩, 1)
            ∧ async_get_function_config server
                (dictSet cache fid ⟨nm, ds, pr, mdl, isch, osch⟩) fid u
              = .ok (⟨nm, ds, pr, mdl, isch, osch⟩,
                  dictSet cache fid ⟨nm, ds, pr, mdl, isch, osch⟩, 0)
            ∧ async_get_function_config server cache fid false
              = .ok (⟨nm, ds, pr, mdl, isch, osch⟩, cache, 1))) := by
  refine ⟨?_, ?_, ?_, ?_⟩
  · intro server cache oid v u hhit
    exact ⟨by simp [sync_get_optimizer_function_id, hhit],
      by simp [async_get_optimizer_function_id, hhit]⟩
  · intro server cache fid v u hhit
    exact ⟨by simp [sync_get_function_config, hhit],
      by simp [async_get_function_config, hhit]⟩
  · intro server cache oid idv f u hmiss hid hf
    refine ⟨⟨?_, ?_, ?_⟩, ?_, ?_, ?_⟩ <;>
      simp [sync_get_optimizer_function_id, async_get_optimizer_function_id,
        hmiss, hid, hf, lookup_dictSet_self]
  · intro server cache fid idv nm ds pr isch osch mdl u hmiss hid h1 h2 h3 h4 h5 h6
    refine ⟨⟨?_, ?_, ?_⟩, ?_, ?_, ?_⟩ <;>
      simp [sync_get_function_config, async_get_function_config,
        hmiss, hid, h1, h2, h3, h4, h5, h6, lookup_dictSet_self]

/-- Witness for C8: against a server answering
`{"id": 1, "function": 42}`, resolving optimizer id 7 from an empty cache
fetches once and caches `42`; a repeat call (here with `update_cache = false`)
is served from the cache with the identical value and no fetch. -/
theorem C8_witness :
    sync_get_optimizer_function_id
        (fun _ => [("id", Json.num 1), ("function", Json.num 42)]) [] 7 true
        = .ok (Json.num 42, [(7, Json.num 42)], 1)
      ∧ sync_get_optimizer_function_id
        (fun _ => [("id", Json.num 1), ("function", Json.num 42)])
        [(7, Json.num 42)] 7 false
        = .ok (Json.num 42, [(7, Json.num 42)], 0) := by
  have h := C8_cache_semantics.2.2.1
    (fun _ => [("id", Json.num 1), ("function", Json.num 42)]) [] 7
    (Json.num 1) (Json.num 42) false rfl rfl rfl
  exact ⟨h.1.1, h.1.2.1⟩

-- ### check_valid and duplicate object ids

theorem check_valid_go_append :
    ∀ (l : List ZenbaseFunctionInput) (seen : List (Option Int))
      (rest : List ZenbaseFunctionInput) (ms : Json → Json → Bool) (schema : Json),
      (∀ i ∈ l, ms schema i.inputs = true) →
      (∀ i ∈ l, i.object_id ∉ seen) →
      (seen ++ l.map (·.object_id)).Nodup →
      check_valid_go ms schema seen (l ++ rest)
        = check_valid_go ms schema (seen ++ l.map (·.object_id)) rest := by
  intro l
  induction l with
  | nil => intro seen rest ms schema _ _ _; simp
  | cons i t ih =>
    intro seen rest ms schema hconf hnot hnodup
    have hni : i.object_id ∉ seen := hnot i (List.mem_cons_self _ _)
    have hmapcons : (i :: t).map (·.object_id) = i.object_id :: t.map (·.object_id) := rfl
    rw [List.cons_append]
    simp only [check_valid_go]
    rw [if_neg hni, if_pos (hconf i (List.mem_cons_self _ _))]
    have hassoc : seen ++ (i :: t).map (·.object_id)
        = (seen ++ [i.object_id]) ++ t.map (·.object_id) := by
      rw [hmapcons, List.append_assoc, List.singleton_append]
    rw [hassoc]
    have hnodup' : ((seen ++ [i.object_id]) ++ t.map (·.object_id)).Nodup := by
      rw [← hassoc]; exact hnodup
    have hd : i.object_id ∉ t.map (·.object_id) := by
      rw [hmapcons] at hnodup
      have := (List.nodup_append.mp hnodup).2.1
      exact (List.nodup_cons.mp this).1
    refine ih (seen ++ [i.object_id]) rest ms schema
      (fun j hj => hconf j (List.mem_cons_of_mem _ hj)) ?_ hnodup'
    intro j hj hjmem
    rcases List.mem_append.1 hjmem with hjs | hjx
    · exact hnot j (List.mem_cons_of_mem _ hj) hjs
    · rw [List.mem_singleton] at hjx
      exact hd (hjx ▸ List.mem_map_of_mem (·.object_id) hj)

/-- C10: when a batch input list contains two items whose `object_id` is
absent — the second coming after a prefix whose items all conform to the
schema and whose ids are pairwise distinct — `check_valid` raises the
duplicate-object-id `ValueError` naming `None` at that second item: absent
ids are compared equal, so at most one item without an `object_id` can pass
validation. -/
theorem C10_duplicate_none_object_ids :
    ∀ (ms : Json → Json → Bool) (schema : Json)
      (xs ys zs : List ZenbaseFunctionInput) (a b : ZenbaseFunctionInput),
      a.object_id = none → b.object_id = none →
      (∀ i ∈ xs ++ a :: ys, ms schema i.inputs = true) →
      ((xs ++ a :: ys).map (·.object_id)).Nodup →
      check_valid ms schema (xs ++ a :: ys ++ b :: zs)
        = .error (.valueError "Object ID None already exists in the list") := by
  intro ms schema xs ys zs a b ha hb hconf hnodup
  unfold check_valid
  have hl : xs ++ a :: ys ++ b :: zs = (xs ++ a :: ys) ++ (b :: zs) := by simp
  rw [hl, check_valid_go_append (xs ++ a :: ys) [] (b :: zs) ms schema hconf
    (by simp) (by simpa using hnodup)]
  have hmem : b.object_id ∈ ([] : List (Option Int)) ++ (xs ++ a :: ys).map (·.object_id) := by
    rw [hb]
    simp only [List.nil_append, List.mem_map]
    exact ⟨a, by simp, ha⟩
  simp only [check_valid_go]
  rw [if_pos hmem, hb]
  have hs : "Object ID " ++ pyStrOptInt none ++ " already exists in the list"
      = "Object ID None already exists in the list" := by decide
  rw [hs]

/-- Witness for C10: two inputs both lacking an `object_id` fail validation
with the duplicate error at the second item, under a schema that accepts
everything. -/
theorem C10_witness :
    check_valid (fun _ _ => true) .null [⟨.null, none⟩, ⟨.null, none⟩]
      = .error (.valueError "Object ID None already exists in the list") :=
  C10_duplicate_none_object_ids (fun _ _ => true) .null [] [] []
    ⟨.null, none⟩ ⟨.null, none⟩ rfl rfl (by simp) (by simp)

-- ### Error classification

theorem check_valid_go_error_valueError :
    ∀ (items : List ZenbaseFunctionInput) (seen : List (Option Int))
      (ms : Json → Json → Bool) (schema : Json) (e : PyError),
      check_valid_go ms schema seen items = .error e → ∃ m, e = .valueError m := by
  intro items
  induction items with
  | nil => intro seen ms schema e h; exact absurd h (by simp [check_valid_go])
  | cons i t ih =>
    intro seen ms schema e h
    simp only [check_valid_go] at h
    split at h
    · cases h; exact ⟨_, rfl⟩
    · split at h
      · exact ih _ ms schema e h
      · cases h; exact ⟨_, rfl⟩

/-- C4 counterexample: requesting the function id of an uncached non-integer
batch-run id raises `ZenbaseAPIError` — the very same kind the transport
boundary uses — not a distinct local-validation kind, refuting the claim for
the "not found in local batch run history" case. -/
theorem C4_counterexample :
    get_batch_run_function_id (fun _ => none) (fun _ => []) [] [] (.inr "abc")
      = .error (.zenbaseAPIError
        (.str "Batch run ID abc not found in local batch run history.")) := by
  have h0 : get_batch_run_function_id (fun _ => none) (fun _ => []) [] [] (.inr "abc")
      = .error (.zenbaseAPIError
        (.str ("Batch run ID " ++ "abc" ++ " not found in local batch run history."))) := rfl
  have hs : "Batch run ID " ++ "abc" ++ " not found in local batch run history."
      = "Batch run ID abc not found in local batch run history." := by decide
  rw [h0, hs]

/-- C4 (amended): duplicate `object_id` and schema-mismatch failures are
raised as `ValueError` — a kind distinct from `ZenbaseAPIError` — before any
network call; but the "not found in local batch run history" failure (raised
without any network call) and the "Batch run not completed" failure (raised
after the status poll, before any page fetch, in both variants) use
`ZenbaseAPIError`, the same kind as transport and protocol errors. -/
theorem C4_error_kinds :
    (∀ (ms : Json → Json → Bool) (schema : Json)
        (items : List ZenbaseFunctionInput) (e : PyError),
        check_valid ms schema items = .error e → ∃ m, e = .valueError m)
      ∧ (∀ (server_run : Int → Option Int) (server_opt : Int → JsonDict)
          (brCache : List ((Int ⊕ String) × Json)) (optCache : List (Int × Json))
          (s : String), brCache.lookup (.inr s) = none →
          get_batch_run_function_id server_run server_opt brCache optCache (.inr s)
            = .error (.zenbaseAPIError
              (.str ("Batch run ID " ++ s ++ " not found in local batch run history."))))
      ∧ (∀ (st0 : BatchFunctionRunStatus) (later : List BatchFunctionRunStatus)
          (pages : Nat → PageResponse), st0.status = .RUNNING →
          sync_get_batch_optimizer_run_results st0 later pages false
              = .err (.zenbaseAPIError (.str "Batch run not completed"))
            ∧ async_get_batch_optimizer_run_results st0 later pages false
              = .err (.zenbaseAPIError (.str "Batch run not completed")))
      ∧ (∀ (m : String) (j : Json), PyError.valueError m ≠ .zenbaseAPIError j) := by
  refine ⟨?_, ?_, ?_, ?_⟩
  · intro ms schema items e h
    exact check_valid_go_error_valueError items [] ms schema e h
  · intro server_run server_opt brCache optCache s hmiss
    simp [get_batch_run_function_id, hmiss]
  · intro st0 later pages hrun
    constructor <;>
      simp [sync_get_batch_optimizer_run_results,
        async_get_batch_optimizer_run_results, hrun]
  · intro m j
    simp

/-- Witness for C4's amended theorem: a duplicate-id failure is a
`ValueError`; an uncached string id "abc" raises the `ZenbaseAPIError` above;
and a RUNNING run with `block_until_completed = false` raises
`ZenbaseAPIError("Batch run not completed")`. -/
theorem C4_witness :
    (∃ m, PyError.valueError ("Object ID " ++ "None" ++ " already exists in the list")
        = .valueError m)
      ∧ get_batch_run_function_id (fun _ => none) (fun _ => []) [] [] (.inr "abc")
        = .error (.zenbaseAPIError
          (.str ("Batch run ID " ++ "abc" ++ " not found in local batch run history.")))
      ∧ sync_get_batch_optimizer_run_results ⟨.RUNNING, 10, 0, 0⟩ [] (fun _ => ⟨0, []⟩) false
        = .err (.zenbaseAPIError (.str "Batch run not completed")) :=
  ⟨C4_error_kinds.1 (fun _ _ => true) Json.null [⟨Json.null, none⟩, ⟨Json.null, none⟩]
      (.valueError ("Object ID " ++ "None" ++ " already exists in the list")) rfl,
    C4_error_kinds.2.1 (fun _ => none) (fun _ => []) [] [] "abc" rfl,
    (C4_error_kinds.2.2.1 ⟨.RUNNING, 10, 0, 0⟩ [] (fun _ => ⟨0, []⟩) rfl).1⟩

/-- C5 counterexample: on a 2xx response that is an empty object — no `'id'`,
no `'detail'` — the blocking `get_optimizer_function_id` raises an untyped
`KeyError` for `'detail'` (its raise site subscripts `response['detail']`),
not the typed `ZenbaseAPIError`, refuting the claim for the blocking
variant. -/
theorem C5_counterexample :
    sync_get_optimizer_function_id (fun _ => []) [] 7 true = .error (.keyError "detail")
      ∧ PyError.keyError "detail" ≠ .zenbaseAPIError (.str "Unknown response format") :=
  ⟨rfl, by simp⟩

/-- C5 (amended): when a 2xx `optimizer-configurations/{id}` response lacks
`'id'`, both variants raise the typed `ZenbaseAPIError` carrying the
server-supplied `'detail'` when that field is present; when `'detail'` is
also absent, only the non-blocking variant raises the typed error (with the
generic "Unknown response format" message) — the blocking variant fails with
an untyped `KeyError` on `'detail'`, which is not a `ZenbaseAPIError`. -/
theorem C5_missing_id_error_detail :
    (∀ (server : Int → JsonDict) (cache : List (Int × Json)) (oid : Int)
        (u : Bool) (d : Json),
        cache.lookup oid = none → dictGet (server oid) "id" = none →
        (dictGet (server oid) "detail" = some d →
          sync_get_optimizer_function_id server cache oid u
              = .error (.zenbaseAPIError d)
            ∧ async_get_optimizer_function_id server cache oid u
              = .error (.zenbaseAPIError d))
        ∧ (dictGet (server oid) "detail" = none →
          sync_get_optimizer_function_id server cache oid u
              = .error (.keyError "detail")
            ∧ async_get_optimizer_function_id server cache oid u
              = .error (.zenbaseAPIError (.str "Unknown response format"))))
      ∧ (∀ (s : String) (j : Json), PyError.keyError s ≠ .zenbaseAPIError j) := by
  constructor
  · intro server cache oid u d hmiss hid
    constructor
    · intro hdet
      exact ⟨by simp [sync_get_optimizer_function_id, hmiss, hid, hdet],
        by simp [async_get_optimizer_function_id, hmiss, hid, hdet]⟩
    · intro hdet
      exact ⟨by simp [sync_get_optimizer_function_id, hmiss, hid, hdet],
        by simp [async_get_optimizer_function_id, hmiss, hid, hdet]⟩
  · intro s j; simp

/-- Witness for C5's amended theorem: on the response
`{"detail": "Not found."}` (no `'id'`), both variants raise the typed error
carrying that detail. -/
theorem C5_witness :
    sync_get_optimizer_function_id (fun _ => [("detail", Json.str "Not found.")]) [] 7 true
        = .error (.zenbaseAPIError (.str "Not found."))
      ∧ async_get_optimizer_function_id (fun _ => [("detail", Json.str "Not found.")]) [] 7 true
        = .error (.zenbaseAPIError (.str "Not found.")) :=
  (C5_missing_id_error_detail.1 (fun _ => [("detail", Json.str "Not found.")]) [] 7 true
    (Json.str "Not found.") rfl rfl).1 rfl

-- ### Request construction agreement and URL building

/-- C2 (amended): for every request the two clients build the same URL, the
same headers (`Authorization` always; `Content-Type: application/json`
exactly when no files), and select the same body — multipart with the same
stringified form fields and the same file parts when a non-empty files dict
is given, a JSON body otherwise.  Their results aggregation, however,
differs on the same server responses: the blocking variant omits the final
result page and keeps duplicate failed ids, the non-blocking variant fetches
every page and deduplicates. -/
theorem C2_request_construction_agrees :
    (∀ (base_url api_key method endpoint : String) (data : Option JsonDict)
        (files : Option (List FilePart)),
        sync_make_request base_url api_key method endpoint data files
          = async_make_request base_url api_key method endpoint data files)
      ∧ runFailedIds (sync_get_batch_optimizer_run_results cexTerminalStatus [] cexServer true)
        = some [3, 5, 3, 7, 5]
      ∧ runFailedIds (async_get_batch_optimizer_run_results cexTerminalStatus [] cexServer true)
        = some [3, 5, 7]
      ∧ runPagesFetched (sync_get_batch_optimizer_run_results cexTerminalStatus [] cexServer true)
        = some [1, 2]
      ∧ runPagesFetched (async_get_batch_optimizer_run_results cexTerminalStatus [] cexServer true)
        = some [1, 2, 3] := by
  refine ⟨?_, rfl, rfl, rfl, rfl⟩
  intro base_url api_key method endpoint data files
  unfold sync_make_request async_make_request
  cases hf : filesFalsy files <;> simp [hf]

theorem dropWhile_reverse_no_slash :
    ∀ (l : List Char), l.getLast? ≠ some '/' →
      (l.reverse.dropWhile (fun c => decide (c = '/'))).reverse = l := by
  intro l h
  cases hb : l.reverse with
  | nil =>
    have hl : l = [] := by simpa using congrArg List.reverse hb
    subst hl; rfl
  | cons c t =>
    have hc : ¬ c = '/' := by
      intro hcc
      exact h (by rw [← List.head?_reverse, hb, hcc]; rfl)
    rw [List.dropWhile_cons, if_neg (by simp [hc]), ← hb, List.reverse_reverse]

/-- C9 (amended): the request URL is the given `base_url`, one slash, then the
endpoint with its leading slashes trimmed — `base_url` itself is used
verbatim, with no trailing-slash trim.  So whenever `base_url` does not end
in `'/'`, both variants' URL equals the spec's trim-and-join rule; a
`base_url` ending in `'/'` instead yields a double slash (its
counterexample). -/
theorem C9_url_join :
    ∀ (base_url api_key method endpoint : String) (data : Option JsonDict)
      (files : Option (List FilePart)),
      base_url.data.getLast? ≠ some '/' →
      (sync_make_request base_url api_key method endpoint data files).url
          = spec_join_url base_url endpoint
        ∧ (async_make_request base_url api_key method endpoint data files).url
          = spec_join_url base_url endpoint := by
  intro base api m ep data files h
  have hr : rstripSlashes base = base := by
    unfold rstripSlashes
    cases base with
    | mk l => exact congrArg String.mk (dropWhile_reverse_no_slash l h)
  have hsync : (sync_make_request base api m ep data files).url
      = base ++ "/" ++ lstripSlashes ep := by
    unfold sync_make_request
    cases hf : filesFalsy files <;> simp [hf]
  have hasync : (async_make_request base api m ep data files).url
      = base ++ "/" ++ lstripSlashes ep := by
    unfold async_make_request
    cases hf : filesFalsy files <;> simp [hf]
  constructor
  · rw [hsync, spec_join_url, hr]
  · rw [hasync, spec_join_url, hr]

/-- C9 counterexample: with `base_url = "https://x/"` (trailing slash) and
endpoint `"a"`, the clients build `"https://x//a"` — a double slash — not the
trimmed join `"https://x/a"` the claim prescribes. -/
theorem C9_counterexample :
    (sync_make_request "https://x/" "k" "GET" "a" none none).url = "https://x//a"
      ∧ (sync_make_request "https://x/" "k" "GET" "a" none none).url
        ≠ spec_join_url "https://x/" "a" := by
  constructor <;> decide

/-- Witness for C9's amended theorem: the production base URL (no trailing
slash) joined with `"batch-run/"` matches the spec's trim-and-join rule in
both variants. -/
theorem C9_witness :
    (sync_make_request "https://orch.zenbase.ai/api" "k" "POST" "batch-run/" none none).url
        = spec_join_url "https://orch.zenbase.ai/api" "batch-run/"
      ∧ (async_make_request "https://orch.zenbase.ai/api" "k" "POST" "batch-run/" none none).url
        = spec_join_url "https://orch.zenbase.ai/api" "batch-run/" :=
  C9_url_join "https://orch.zenbase.ai/api" "k" "POST" "batch-run/" none none (by decide)

end Zenbase

